import Mathlib

/-!
Shallow embedding of the Space Invaders game core (src/SpaceInvaders.c,
current revision: the one with the five-state machine start/ready/play/win/lose,
alien pool and bullet pool of capacity 64 each).

Floating-point fields (positions, elapsed timers) are embedded over `ℚ`; every
constant of the program is a small integer or half-integer, exactly
representable. C `int` fields are embedded over `Int` (`Nat` for the two pool
cursors, which the program keeps in `[0, 64)` by taking `% 64` after every
increment). Rendering, audio and input polling are external: the per-frame
keyboard samples and the frame time are collected in an `Input` record and the
global mutable state in a `GState` record, so the C `Update` procedure becomes
a pure function `Input → GState → GState`.
-/

namespace SpaceInvaders

/-- raylib Vector2, embedded over the rationals. -/
structure Vector2 where
  x : ℚ
  y : ℚ
deriving DecidableEq

/-- struct Player of SpaceInvaders.c. -/
structure Player where
  position : Vector2
  livesRemaining : Int
  alive : Bool
deriving DecidableEq

/-- struct Bullet of SpaceInvaders.c. -/
structure Bullet where
  position : Vector2
  belongsToPlayer : Bool
  active : Bool
deriving DecidableEq

/-- struct Alien of SpaceInvaders.c. -/
structure Alien where
  position : Vector2
  alive : Bool
deriving DecidableEq

/-- enum GameState of SpaceInvaders.c. -/
inductive GameState where
  | startState
  | readyState
  | playState
  | winState
  | loseState
deriving DecidableEq

/-- The per-frame external inputs consumed by Update: the two keyboard
queries on KEY_A and KEY_D, IsKeyDown and IsKeyPressed on KEY_SPACE, and
GetFrameTime. -/
structure Input where
  keyADown : Bool
  keyDDown : Bool
  spaceDown : Bool
  spacePressed : Bool
  frameTime : ℚ
deriving DecidableEq

def MAX_ALIEN_COUNT : Nat := 64

def MAX_BULLET_COUNT : Nat := 64

def screenWidth : Int := 960

def screenHalfWidth : Int := 480

def screenHeight : Int := 540

def screenHalfHeight : Int := 270

def playerWidth : Int := 8

def playerHalfWidth : Int := 4

def playerHeight : Int := 8

def playerHalfHeight : Int := 4

def alienWidth : Int := 8

def alienHalfWidth : Int := 4

def playerBulletRadius : Int := 4

def alienBulletRadius : Int := 2

def playerSpeed : Int := 3

def alienSpeed : ℚ := 1/2

def playerBulletSpeed : Int := 2

def alienBulletSpeed : Int := 1

def delayThreshold : ℚ := 3

def animationThreshold : ℚ := 1/2

def animationFrameCount : Nat := 2

/-- cameraBounds = (Rectangle) { 360, 150, screenWidth * 0.25, screenHeight * 0.25 },
split into its four fields. -/
def cameraBoundsX : ℚ := 360

def cameraBoundsY : ℚ := 150

def cameraBoundsWidth : ℚ := 240

def cameraBoundsHeight : ℚ := 135

/-- The global mutable state of the program: the game-state enum, the player,
the camera target (set once in Initialize, read by the wave spawner), the two
entity pools with their cursors, the wave number, the four elapsed timers and
the alien animation / formation-direction globals. `alienDirection` is the C
bool: false = 0 (formation moving right), true = 1 (moving left). -/
structure GState where
  gameState : GameState
  player : Player
  cameraTargetX : ℚ
  cameraTargetY : ℚ
  aliens : List Alien
  nextAvailableAlien : Nat
  bullets : List Bullet
  nextAvailableBullet : Nat
  wave : Int
  readyElapsed : ℚ
  winElapsed : ℚ
  loseElapsed : ℚ
  alienFrameIndex : Nat
  alienFrameElapsed : ℚ
  alienDirection : Bool
deriving DecidableEq

/-- raymath Clamp. The program calls it on the int expression wave / 3 + 1 and
the int bounds 1 and 5; the float round trip is exact at these magnitudes, so
it is embedded over `Int`, mirroring the branch structure of raymath. -/
def Clamp (value lo hi : Int) : Int :=
  let res := if value < lo then lo else value
  if res > hi then hi else res

/-- One alien-pool acquisition inside the spawn loop of FromReadyToPlayState:
writes the slot under the cursor (position camera.target.x - column * (alienWidth
+ alienHalfWidth), cameraBounds.y + 20, alive = true) and advances the cursor
modulo MAX_ALIEN_COUNT. -/
def spawnAlien (column : Int) (s : GState) : GState :=
  { s with
    aliens := s.aliens.set s.nextAvailableAlien
      { position := { x := s.cameraTargetX - ((column * (alienWidth + alienHalfWidth) : Int) : ℚ),
                      y := cameraBoundsY + 20 },
        alive := true },
    nextAvailableAlien := (s.nextAvailableAlien + 1) % MAX_ALIEN_COUNT }

/-- The inner column loop of FromReadyToPlayState: for (column = -5; column <= 5). -/
def spawnColumns : List Int := (List.range 11).map (fun n => (n : Int) - 5)

/-- One row of the spawn loop. -/
def spawnRow (s : GState) : GState := spawnColumns.foldl (fun a c => spawnAlien c a) s

/-- The outer row loop of FromReadyToPlayState: the body does not read the row
index, so the loop is the row-count-fold iteration of `spawnRow`. -/
def spawnRows : Nat → GState → GState
  | 0, s => s
  | n + 1, s => spawnRows n (spawnRow s)

def FromStartToReadyState (s : GState) : GState :=
  { s with gameState := .readyState }

/-- FromReadyToPlayState: sets the playState, computes
rows = Clamp(wave / 3 + 1, 1, 5) and runs the row/column spawn loop. C int
division truncates toward zero, which is Int.tdiv. -/
def FromReadyToPlayState (s : GState) : GState :=
  spawnRows (Clamp (Int.tdiv s.wave 3 + 1) 1 5).toNat { s with gameState := .playState }

def FromPlayToWinState (s : GState) : GState :=
  { s with gameState := .winState }

def FromPlayToLoseState (s : GState) : GState :=
  { s with gameState := .loseState }

def FromWinToReadyState (s : GState) : GState :=
  { s with gameState := .readyState }

def FromLoseToReadyState (s : GState) : GState :=
  { s with gameState := .readyState }

def FromLoseToStartState (s : GState) : GState :=
  { s with gameState := .startState }

def UpdateStartState (input : Input) (s : GState) : GState :=
  if input.spaceDown then FromStartToReadyState s else s

def UpdateReadyState (input : Input) (s : GState) : GState :=
  let s1 : GState := { s with readyElapsed := s.readyElapsed + input.frameTime }
  if s1.readyElapsed > delayThreshold then FromReadyToPlayState s1 else s1

/-- The KEY_A branch of UpdatePlayState: move left by playerSpeed, clamp at
cameraBounds.x. -/
def movePlayerA (s : GState) : GState :=
  let x1 := s.player.position.x - (playerSpeed : ℚ)
  let x2 := if x1 < cameraBoundsX then cameraBoundsX else x1
  { s with player := { s.player with position := { s.player.position with x := x2 } } }

/-- The KEY_D branch of UpdatePlayState: move right by playerSpeed, clamp at
cameraBounds.x + cameraBounds.width - playerWidth. -/
def movePlayerD (s : GState) : GState :=
  let bound := cameraBoundsX + cameraBoundsWidth - (playerWidth : ℚ)
  let x1 := s.player.position.x + (playerSpeed : ℚ)
  let x2 := if x1 > bound then bound else x1
  { s with player := { s.player with position := { s.player.position with x := x2 } } }

/-- The KEY_SPACE branch of UpdatePlayState: one bullet-pool acquisition;
writes the slot under the cursor (muzzle position, player-owned, active) and
advances the cursor modulo MAX_BULLET_COUNT. -/
def shootBullet (s : GState) : GState :=
  { s with
    bullets := s.bullets.set s.nextAvailableBullet
      { position := { x := s.player.position.x + (playerHalfWidth : ℚ),
                      y := s.player.position.y - (playerBulletRadius : ℚ) },
        belongsToPlayer := true, active := true },
    nextAvailableBullet := (s.nextAvailableBullet + 1) % MAX_BULLET_COUNT }

def UpdateAlienAnimations (input : Input) (s : GState) : GState :=
  let e := s.alienFrameElapsed + input.frameTime
  if e > animationThreshold then
    { s with alienFrameElapsed := 0,
             alienFrameIndex := (s.alienFrameIndex + 1) % animationFrameCount }
  else
    { s with alienFrameElapsed := e }

/-- The right bound tested in the alien loop: cameraBounds.x + cameraBounds.width - alienWidth. -/
def alienRightBound : ℚ := cameraBoundsX + cameraBoundsWidth - (alienWidth : ℚ)

/-- The movement applied to one live alien, by the direction current at the
start of the pass. -/
def moveAlien (dir : Bool) (a : Alien) : Alien :=
  if dir = false then { a with position := { a.position with x := a.position.x + alienSpeed } }
  else { a with position := { a.position with x := a.position.x - alienSpeed } }

/-- The bound test the loop applies to the alien position after moving it. -/
def alienHitsBound (dir : Bool) (a : Alien) : Bool :=
  if dir = false then decide (a.position.x > alienRightBound)
  else decide (a.position.x < cameraBoundsX)

/-- The alien loop of UpdatePlayState: walks the pool in index order carrying
the scratch copy newAlienDirection; every live alien is moved by the stored
direction `dir` and, when its moved position is past the bound, the scratch
copy is set to the opposite direction. -/
def alienPass (dir : Bool) : List Alien → Bool → List Alien × Bool
  | [], nd => ([], nd)
  | a :: rest, nd =>
    if a.alive then
      let a1 := moveAlien dir a
      let nd1 := if alienHitsBound dir a1 then !dir else nd
      let r := alienPass dir rest nd1
      (a1 :: r.1, r.2)
    else
      let r := alienPass dir rest nd
      (a :: r.1, r.2)

/-- The alien movement phase of UpdatePlayState: run the pass with the scratch
copy initialized to the stored direction, then store the scratch copy back. -/
def moveAliens (s : GState) : GState :=
  let r := alienPass s.alienDirection s.aliens s.alienDirection
  { s with aliens := r.1, alienDirection := r.2 }

/-- The integration step of the bullet loop: player bullets move up by
playerBulletSpeed, alien bullets move down by alienBulletSpeed. -/
def integrateBullet (b : Bullet) : Bullet :=
  if b.belongsToPlayer then
    { b with position := { b.position with y := b.position.y - (playerBulletSpeed : ℚ) } }
  else
    { b with position := { b.position with y := b.position.y + (alienBulletSpeed : ℚ) } }

/-- The deactivation test of the bullet loop: the bullet is deactivated when
its position is above the top play-bound cameraBounds.y. This is the only
bound test in the loop. -/
def pruneBullet (b : Bullet) : Bullet :=
  if b.position.y < cameraBoundsY then { b with active := false } else b

/-- The body of the bullet loop for one slot: inactive slots are untouched. -/
def moveBullet (b : Bullet) : Bullet :=
  if b.active then pruneBullet (integrateBullet b) else b

/-- The bullet loop of UpdatePlayState; each slot is read and written
independently, so the in-place loop is a map. -/
def moveBullets (s : GState) : GState :=
  { s with bullets := s.bullets.map moveBullet }

/-- The first three steps of UpdatePlayState: player movement from the held
keys and firing on the KEY_SPACE press edge. -/
def prePlayerPhase (input : Input) (s : GState) : GState :=
  let s1 := if input.keyADown then movePlayerA s else s
  let s2 := if input.keyDDown then movePlayerD s1 else s1
  if input.spacePressed then shootBullet s2 else s2

/-- UpdatePlayState: player movement, firing, animation timer, the alien pass
and the bullet loop, in program order. The state machine is never touched here:
the function contains no collision test and never calls FromPlayToWinState or
FromPlayToLoseState. -/
def UpdatePlayState (input : Input) (s : GState) : GState :=
  moveBullets (moveAliens (UpdateAlienAnimations input (prePlayerPhase input s)))

def UpdateWinState (input : Input) (s : GState) : GState :=
  let s1 : GState := { s with winElapsed := s.winElapsed + input.frameTime }
  if s1.winElapsed > delayThreshold then FromWinToReadyState s1 else s1

def UpdateLoseState (input : Input) (s : GState) : GState :=
  let s1 := UpdateAlienAnimations input s
  let s2 : GState := { s1 with loseElapsed := s1.loseElapsed + input.frameTime }
  if s2.loseElapsed > delayThreshold then
    if s2.player.livesRemaining > 0 then FromLoseToReadyState s2 else FromLoseToStartState s2
  else s2

/-- The Update procedure: reads the frame time (carried in `input`) and
dispatches on the current game state. -/
def Update (input : Input) (s : GState) : GState :=
  match s.gameState with
  | .startState => UpdateStartState input s
  | .readyState => UpdateReadyState input s
  | .playState => UpdatePlayState input s
  | .winState => UpdateWinState input s
  | .loseState => UpdateLoseState input s

/-- An alien pool slot as left by Initialize: static storage is
zero-initialized, and Initialize clears the alive flag. -/
def deadAlien : Alien := { position := { x := 0, y := 0 }, alive := false }

/-- A bullet pool slot as left by Initialize. -/
def inactiveBullet : Bullet :=
  { position := { x := 0, y := 0 }, belongsToPlayer := false, active := false }

/-- The state after Initialize(): start state, player centered with 3 lives,
camera target derived from the player position, both pools empty with cursors
at 0, wave 1, all timers 0, formation direction 0 (right). -/
def initialState : GState :=
  { gameState := .startState
    player := { position := { x := (screenHalfWidth : ℚ) - (playerHalfWidth : ℚ),
                              y := (screenHalfHeight : ℚ) - (playerHalfHeight : ℚ) },
                livesRemaining := 3, alive := true }
    cameraTargetX := ((screenHalfWidth : ℚ) - (playerHalfWidth : ℚ)) + (playerHalfWidth : ℚ)
    cameraTargetY := ((screenHalfHeight : ℚ) - (playerHalfHeight : ℚ)) + (playerHalfHeight : ℚ) - 50
    aliens := List.replicate MAX_ALIEN_COUNT deadAlien
    nextAvailableAlien := 0
    bullets := List.replicate MAX_BULLET_COUNT inactiveBullet
    nextAvailableBullet := 0
    wave := 1
    readyElapsed := 0
    winElapsed := 0
    loseElapsed := 0
    alienFrameIndex := 0
    alienFrameElapsed := 0
    alienDirection := false }

/-- The states the program can be in: the state after Initialize and anything
an update step produces from a reachable state. -/
inductive Reachable : GState → Prop where
  | init : Reachable initialState
  | step (input : Input) (s : GState) : Reachable s → Reachable (Update input s)

/-- Number of live aliens in the pool (the program has no such counter; the
spec speaks of the alive-alien count, so it is recomputed here). -/
def countAlive (l : List Alien) : Nat := (l.filter (fun a => a.alive)).length

/-- Number of active bullets in the pool. -/
def countActive (l : List Bullet) : Nat := (l.filter (fun b => b.active)).length

/-- k successive bullet-pool acquisitions (k presses of KEY_SPACE, one per
frame, with everything else idle). -/
def shootIter : Nat → GState → GState
  | 0, s => s
  | k + 1, s => shootIter k (shootBullet s)

/-- The inductive invariant of the running program: only the start, ready and
play states are ever occupied (the win and lose states are dead code in this
revision), and while the machine sits in the start state the ready timer is
still zero. -/
def GoodState (s : GState) : Prop :=
  (s.gameState = GameState.startState ∨ s.gameState = GameState.readyState
    ∨ s.gameState = GameState.playState)
  ∧ (s.gameState = GameState.startState → s.readyElapsed = 0)

/-- A frame sample with no key activity and zero frame time. -/
def inputNone : Input :=
  { keyADown := false, keyDDown := false, spaceDown := false, spacePressed := false,
    frameTime := 0 }

/-- A frame sample with no key activity and a one-second frame time. -/
def inputDt1 : Input :=
  { keyADown := false, keyDDown := false, spaceDown := false, spacePressed := false,
    frameTime := 1 }

/-- A frame sample with KEY_SPACE held and zero frame time. -/
def inputSpace : Input :=
  { keyADown := false, keyDDown := false, spaceDown := true, spacePressed := false,
    frameTime := 0 }

/-- A frame sample with no key activity and a four-second frame time. -/
def inputDt4 : Input :=
  { keyADown := false, keyDDown := false, spaceDown := false, spacePressed := false,
    frameTime := 4 }

/-- A live alien sitting inside the play area. -/
def alienInPlay : Alien := { position := { x := 480, y := 170 }, alive := true }

/-- A play-state snapshot with one live alien and one active player bullet
whose circle overlaps that alien. -/
def sHit : GState :=
  { initialState with
    gameState := .playState,
    aliens := initialState.aliens.set 0 alienInPlay,
    bullets := initialState.bullets.set 0
      { position := { x := 482, y := 172 }, belongsToPlayer := true, active := true } }

/-- A lose-state snapshot: 3 lives, one live alien, player away from its reset
position, lose timer already at the 3-second threshold. -/
def sLose3 : GState :=
  { initialState with
    gameState := .loseState,
    loseElapsed := 3,
    aliens := initialState.aliens.set 0 alienInPlay,
    player := { initialState.player with position := { x := 400, y := 266 } } }

/-- A lose-state snapshot with lives exhausted, on wave 7, lose timer at the
threshold. -/
def sLose0 : GState :=
  { initialState with
    gameState := .loseState,
    loseElapsed := 3,
    wave := 7,
    player := { initialState.player with livesRemaining := 0 } }

/-- A win-state snapshot on wave 4, player away from its reset position, win
timer at the threshold. -/
def sWin : GState :=
  { initialState with
    gameState := .winState,
    winElapsed := 3,
    wave := 4,
    player := { initialState.player with position := { x := 400, y := 266 } } }

/-- A play-state snapshot with one active alien-owned bullet below the bottom
play-bound (cameraBounds.y + cameraBounds.height = 285). -/
def sAlienBullet : GState :=
  { initialState with
    gameState := .playState,
    bullets := initialState.bullets.set 0
      { position := { x := 480, y := 300 }, belongsToPlayer := false, active := true } }

/-- A play-state snapshot with one active player-owned bullet inside the play
area. -/
def sPlayerBullet : GState :=
  { initialState with
    gameState := .playState,
    bullets := initialState.bullets.set 0
      { position := { x := 480, y := 200 }, belongsToPlayer := true, active := true } }

/-- A bare play-state snapshot. -/
def sPlay : GState := { initialState with gameState := .playState }

/-- The player bullet of `sPlayerBullet` after one integration step. -/
def bMoved : Bullet := { position := { x := 480, y := 198 }, belongsToPlayer := true, active := true }

/-- The action of one spawn-loop acquisition on the pool-and-cursor pair, with
the camera target x passed as a parameter; `spawnAlien` is exactly this action
on the corresponding fields of the state. -/
def spawnAlienL (ctx : ℚ) (p : List Alien × Nat) (c : Int) : List Alien × Nat :=
  (p.1.set p.2
    { position := { x := ctx - ((c * (alienWidth + alienHalfWidth) : Int) : ℚ),
                    y := cameraBoundsY + 20 },
      alive := true },
   (p.2 + 1) % MAX_ALIEN_COUNT)

/-- The action of one spawn row on the pool-and-cursor pair. -/
def spawnRowL (ctx : ℚ) (p : List Alien × Nat) : List Alien × Nat :=
  spawnColumns.foldl (spawnAlienL ctx) p

/-- The action of the whole spawn loop on the pool-and-cursor pair. -/
def spawnRowsL (ctx : ℚ) : Nat → List Alien × Nat → List Alien × Nat
  | 0, p => p
  | n + 1, p => spawnRowsL ctx n (spawnRowL ctx p)

lemma foldl_spawnAlien_proj (cs : List Int) :
    ∀ s : GState,
      ((cs.foldl (fun a c => spawnAlien c a) s).aliens,
        (cs.foldl (fun a c => spawnAlien c a) s).nextAvailableAlien)
        = cs.foldl (spawnAlienL s.cameraTargetX) (s.aliens, s.nextAvailableAlien)
      ∧ (cs.foldl (fun a c => spawnAlien c a) s).cameraTargetX = s.cameraTargetX := by
  induction cs with
  | nil => intro s; exact ⟨rfl, rfl⟩
  | cons c cs ih =>
    intro s
    simpa [spawnAlien, spawnAlienL] using ih (spawnAlien c s)

lemma spawnRow_proj (s : GState) :
    ((spawnRow s).aliens, (spawnRow s).nextAvailableAlien)
      = spawnRowL s.cameraTargetX (s.aliens, s.nextAvailableAlien)
    ∧ (spawnRow s).cameraTargetX = s.cameraTargetX :=
  foldl_spawnAlien_proj spawnColumns s

lemma spawnRows_proj (n : Nat) :
    ∀ s : GState,
      ((spawnRows n s).aliens, (spawnRows n s).nextAvailableAlien)
        = spawnRowsL s.cameraTargetX n (s.aliens, s.nextAvailableAlien)
      ∧ (spawnRows n s).cameraTargetX = s.cameraTargetX := by
  induction n with
  | zero => intro s; exact ⟨rfl, rfl⟩
  | succ n ih =>
    intro s
    obtain ⟨hrow, hctx⟩ := spawnRow_proj s
    obtain ⟨ih1, ih2⟩ := ih (spawnRow s)
    refine ⟨?_, ?_⟩
    · rw [show spawnRows (n + 1) s = spawnRows n (spawnRow s) from rfl, ih1, hctx, hrow]
      rfl
    · rw [show spawnRows (n + 1) s = spawnRows n (spawnRow s) from rfl, ih2, hctx]

lemma Clamp_one_five (v : Int) :
    Clamp v 1 5 = 1 ∨ Clamp v 1 5 = 2 ∨ Clamp v 1 5 = 3 ∨ Clamp v 1 5 = 4 ∨ Clamp v 1 5 = 5 := by
  simp only [Clamp]
  split_ifs <;> omega

lemma countAlive_cons (x : Alien) (t : List Alien) :
    countAlive (x :: t) = (if x.alive then 1 else 0) + countAlive t := by
  by_cases h : x.alive <;> simp [countAlive, List.filter_cons, h, Nat.add_comm]

lemma countAlive_set_of_dead :
    ∀ (l : List Alien) (i : Nat) (a : Alien),
      l[i]?.map (fun x => x.alive) = some false → a.alive = true →
      countAlive (l.set i a) = countAlive l + 1 := by
  intro l
  induction l with
  | nil => intro i a hd _; simp at hd
  | cons x t ih =>
    intro i a hd ha
    cases i with
    | zero =>
      have hx : x.alive = false := by simpa using hd
      simp [List.set, countAlive_cons, ha, hx]
      omega
    | succ i =>
      simp only [List.getElem?_cons_succ] at hd
      simp only [List.set, countAlive_cons, ih i a hd ha]
      omega

lemma foldl_spawnAlienL_count (ctx : ℚ) :
    ∀ (cs : List Int) (l : List Alien) (i : Nat),
      l.length = MAX_ALIEN_COUNT → i + cs.length < MAX_ALIEN_COUNT →
      (∀ j, i ≤ j → j < MAX_ALIEN_COUNT → l[j]?.map (fun x => x.alive) = some false) →
      countAlive (cs.foldl (spawnAlienL ctx) (l, i)).1 = countAlive l + cs.length
      ∧ (cs.foldl (spawnAlienL ctx) (l, i)).2 = i + cs.length
      ∧ (cs.foldl (spawnAlienL ctx) (l, i)).1.length = MAX_ALIEN_COUNT
      ∧ (∀ j, i + cs.length ≤ j → (cs.foldl (spawnAlienL ctx) (l, i)).1[j]? = l[j]?) := by
  intro cs
  induction cs with
  | nil =>
    intro l i hlen _ _
    exact ⟨by simp, by simp, hlen, fun j _ => rfl⟩
  | cons c cs ih =>
    intro l i hlen hbound hdead
    have hcs : (c :: cs).length = cs.length + 1 := rfl
    have hi : i < MAX_ALIEN_COUNT := by rw [hcs] at hbound; omega
    have hb : i + 1 + cs.length < MAX_ALIEN_COUNT := by rw [hcs] at hbound; omega
    set A : Alien :=
      { position := { x := ctx - ((c * (alienWidth + alienHalfWidth) : Int) : ℚ),
                      y := cameraBoundsY + 20 }, alive := true } with hA
    have hmod : (i + 1) % MAX_ALIEN_COUNT = i + 1 := Nat.mod_eq_of_lt (by omega)
    have hfold : (c :: cs).foldl (spawnAlienL ctx) (l, i)
        = cs.foldl (spawnAlienL ctx) (l.set i A, (i + 1) % MAX_ALIEN_COUNT) := rfl
    rw [hfold, hmod]
    have hlen' : (l.set i A).length = MAX_ALIEN_COUNT := by rw [List.length_set]; exact hlen
    have hdead' : ∀ j, i + 1 ≤ j → j < MAX_ALIEN_COUNT →
        (l.set i A)[j]?.map (fun x => x.alive) = some false := by
      intro j hj1 hj2
      rw [List.getElem?_set_ne (by omega)]
      exact hdead j (by omega) hj2
    obtain ⟨ihc, ihcur, ihlen, ihtail⟩ := ih (l.set i A) (i + 1) hlen' hb hdead'
    have hcnt : countAlive (l.set i A) = countAlive l + 1 :=
      countAlive_set_of_dead l i A (hdead i (Nat.le_refl i) hi) (by rw [hA])
    refine ⟨?_, ?_, ihlen, ?_⟩
    · rw [ihc, hcnt, hcs]; omega
    · rw [ihcur, hcs]; omega
    · intro j hj
      rw [hcs] at hj
      rw [ihtail j (by omega), List.getElem?_set_ne (by omega)]

lemma spawnColumns_length : spawnColumns.length = 11 := rfl

lemma spawnRowsL_count (ctx : ℚ) :
    ∀ (n : Nat) (l : List Alien) (i : Nat),
      l.length = MAX_ALIEN_COUNT → i + n * 11 < MAX_ALIEN_COUNT →
      (∀ j, i ≤ j → j < MAX_ALIEN_COUNT → l[j]?.map (fun x => x.alive) = some false) →
      countAlive (spawnRowsL ctx n (l, i)).1 = countAlive l + n * 11
      ∧ (spawnRowsL ctx n (l, i)).2 = i + n * 11 := by
  intro n
  induction n with
  | zero => intro l i hlen _ _; exact ⟨by simp [spawnRowsL], by simp [spawnRowsL]⟩
  | succ n ih =>
    intro l i hlen hbound hdead
    have hb1 : i + spawnColumns.length < MAX_ALIEN_COUNT := by
      rw [spawnColumns_length]; omega
    obtain ⟨hc, hcur, hlen1, htail⟩ := foldl_spawnAlienL_count ctx spawnColumns l i hlen hb1 hdead
    set q := spawnColumns.foldl (spawnAlienL ctx) (l, i) with hq
    have hq2 : q.2 = i + 11 := by rw [hcur, spawnColumns_length]
    have hrow : spawnRowsL ctx (n + 1) (l, i) = spawnRowsL ctx n q := rfl
    have hqeta : q = (q.1, i + 11) := by rw [← hq2]
    have hdead2 : ∀ j, i + 11 ≤ j → j < MAX_ALIEN_COUNT →
        q.1[j]?.map (fun x => x.alive) = some false := by
      intro j hj1 hj2
      rw [htail j (by rw [spawnColumns_length]; omega)]
      exact hdead j (by omega) hj2
    obtain ⟨ihc, ihcur⟩ := ih q.1 (i + 11) hlen1 (by omega) hdead2
    constructor
    · rw [hrow, hqeta, ihc, hc, spawnColumns_length]
      omega
    · rw [hrow, hqeta, ihcur]
      omega

lemma foldl_spawnAlien_gameState (cs : List Int) :
    ∀ s : GState, (cs.foldl (fun a c => spawnAlien c a) s).gameState = s.gameState := by
  induction cs with
  | nil => intro s; rfl
  | cons c cs ih =>
    intro s
    rw [show (c :: cs).foldl (fun a c => spawnAlien c a) s
        = cs.foldl (fun a c => spawnAlien c a) (spawnAlien c s) from rfl, ih]
    rfl

lemma spawnRow_gameState (s : GState) : (spawnRow s).gameState = s.gameState :=
  foldl_spawnAlien_gameState spawnColumns s

lemma spawnRows_gameState : ∀ (n : Nat) (s : GState), (spawnRows n s).gameState = s.gameState := by
  intro n
  induction n with
  | zero => intro s; rfl
  | succ n ih =>
    intro s
    rw [show spawnRows (n + 1) s = spawnRows n (spawnRow s) from rfl, ih, spawnRow_gameState]

lemma FromReadyToPlayState_gameState (s : GState) :
    (FromReadyToPlayState s).gameState = GameState.playState := by
  rw [show FromReadyToPlayState s
      = spawnRows (Clamp (Int.tdiv s.wave 3 + 1) 1 5).toNat { s with gameState := GameState.playState }
      from rfl, spawnRows_gameState]

lemma UpdateAlienAnimations_gameState (input : Input) (s : GState) :
    (UpdateAlienAnimations input s).gameState = s.gameState := by
  simp only [UpdateAlienAnimations]
  split <;> rfl

lemma UpdateAlienAnimations_aliens (input : Input) (s : GState) :
    (UpdateAlienAnimations input s).aliens = s.aliens := by
  simp only [UpdateAlienAnimations]
  split <;> rfl

lemma UpdateAlienAnimations_alienDirection (input : Input) (s : GState) :
    (UpdateAlienAnimations input s).alienDirection = s.alienDirection := by
  simp only [UpdateAlienAnimations]
  split <;> rfl

lemma UpdateAlienAnimations_bullets (input : Input) (s : GState) :
    (UpdateAlienAnimations input s).bullets = s.bullets := by
  simp only [UpdateAlienAnimations]
  split <;> rfl

lemma moveAliens_gameState (s : GState) : (moveAliens s).gameState = s.gameState := rfl

lemma moveAliens_bullets (s : GState) : (moveAliens s).bullets = s.bullets := rfl

lemma moveBullets_gameState (s : GState) : (moveBullets s).gameState = s.gameState := rfl

lemma moveBullets_aliens (s : GState) : (moveBullets s).aliens = s.aliens := rfl

lemma moveBullets_alienDirection (s : GState) : (moveBullets s).alienDirection = s.alienDirection := rfl

lemma prePlayerPhase_gameState (input : Input) (s : GState) :
    (prePlayerPhase input s).gameState = s.gameState := by
  unfold prePlayerPhase
  cases hsp : input.spacePressed <;> cases hd : input.keyDDown <;> cases ha : input.keyADown <;>
    simp [shootBullet, movePlayerA, movePlayerD]

lemma prePlayerPhase_aliens (input : Input) (s : GState) :
    (prePlayerPhase input s).aliens = s.aliens := by
  unfold prePlayerPhase
  cases hsp : input.spacePressed <;> cases hd : input.keyDDown <;> cases ha : input.keyADown <;>
    simp [shootBullet, movePlayerA, movePlayerD]

lemma prePlayerPhase_alienDirection (input : Input) (s : GState) :
    (prePlayerPhase input s).alienDirection = s.alienDirection := by
  unfold prePlayerPhase
  cases hsp : input.spacePressed <;> cases hd : input.keyDDown <;> cases ha : input.keyADown <;>
    simp [shootBullet, movePlayerA, movePlayerD]

lemma UpdatePlayState_gameState (input : Input) (s : GState) :
    (UpdatePlayState input s).gameState = s.gameState := by
  unfold UpdatePlayState
  rw [moveBullets_gameState, moveAliens_gameState, UpdateAlienAnimations_gameState,
    prePlayerPhase_gameState]

lemma Update_start (input : Input) (s : GState) (h : s.gameState = GameState.startState) :
    Update input s = UpdateStartState input s := by
  unfold Update
  rw [h]

lemma Update_ready (input : Input) (s : GState) (h : s.gameState = GameState.readyState) :
    Update input s = UpdateReadyState input s := by
  unfold Update
  rw [h]

lemma Update_play (input : Input) (s : GState) (h : s.gameState = GameState.playState) :
    Update input s = UpdatePlayState input s := by
  unfold Update
  rw [h]

lemma Update_win (input : Input) (s : GState) (h : s.gameState = GameState.winState) :
    Update input s = UpdateWinState input s := by
  unfold Update
  rw [h]

lemma Update_lose (input : Input) (s : GState) (h : s.gameState = GameState.loseState) :
    Update input s = UpdateLoseState input s := by
  unfold Update
  rw [h]

lemma reachable_goodState : ∀ s, Reachable s → GoodState s := by
  intro s h
  induction h with
  | init => exact ⟨Or.inl rfl, fun _ => rfl⟩
  | step input s hs ih =>
    obtain ⟨hmem, helapsed⟩ := ih
    rcases hmem with h | h | h
    · rw [Update_start input s h]
      unfold UpdateStartState
      by_cases hk : input.spaceDown = true
      · rw [if_pos hk]
        exact ⟨Or.inr (Or.inl rfl), fun hc => helapsed h⟩
      · rw [if_neg hk]
        exact ⟨Or.inl h, helapsed⟩
    · rw [Update_ready input s h]
      unfold UpdateReadyState
      by_cases hgt : ({ s with readyElapsed := s.readyElapsed + input.frameTime } : GState).readyElapsed
          > delayThreshold
      · rw [if_pos hgt]
        refine ⟨Or.inr (Or.inr (FromReadyToPlayState_gameState _)), fun hc => ?_⟩
        rw [FromReadyToPlayState_gameState] at hc
        cases hc
      · rw [if_neg hgt]
        refine ⟨Or.inr (Or.inl ?_), fun hc => ?_⟩
        · rw [show ({ s with readyElapsed := s.readyElapsed + input.frameTime } : GState).gameState
            = s.gameState from rfl, h]
        · rw [show ({ s with readyElapsed := s.readyElapsed + input.frameTime } : GState).gameState
            = s.gameState from rfl, h] at hc
          cases hc
    · rw [Update_play input s h]
      refine ⟨Or.inr (Or.inr ?_), fun hc => ?_⟩
      · rw [UpdatePlayState_gameState, h]
      · rw [UpdatePlayState_gameState, h] at hc
        cases hc

/-- C1, counterexample: at wave 1 the claim predicts
clamp(1/3 + 1, 1, 5) * 15 = 15 live aliens after the Ready-to-Play spawn, but
running the transition on the initial (empty-pool) state leaves 11 live
aliens: the column loop runs over offsets -5..5, 11 columns, not 15. -/
theorem C1_counterexample :
    countAlive (FromReadyToPlayState initialState).aliens = 11
    ∧ (Clamp (Int.tdiv initialState.wave 3 + 1) 1 5).toNat * 15 = 15
    ∧ (11 : Nat) ≠ 15 :=
  ⟨rfl, by decide, by decide⟩

/-- C1 (amended): for every wave number, the Ready-to-Play transition spawns
clamp(wave/3 + 1, 1, 5) rows of 11 columns (offsets -5..5 centered on the
camera target x-coordinate), so spawning into an empty pool with the cursor at
its initial position leaves exactly clamp(wave/3 + 1, 1, 5) * 11 live aliens. -/
theorem C1_spawn_count (s : GState)
    (h1 : s.aliens = initialState.aliens) (h2 : s.nextAvailableAlien = 0) :
    countAlive (FromReadyToPlayState s).aliens = (Clamp (Int.tdiv s.wave 3 + 1) 1 5).toNat * 11 := by
  obtain ⟨hpair, -⟩ := spawnRows_proj (Clamp (Int.tdiv s.wave 3 + 1) 1 5).toNat
    { s with gameState := GameState.playState }
  have ha := congrArg Prod.fst hpair
  simp only at ha
  rw [show FromReadyToPlayState s
      = spawnRows (Clamp (Int.tdiv s.wave 3 + 1) 1 5).toNat { s with gameState := GameState.playState }
      from rfl]
  rw [ha]
  rw [show ({ s with gameState := GameState.playState } : GState).aliens = s.aliens from rfl,
      show ({ s with gameState := GameState.playState } : GState).nextAvailableAlien
        = s.nextAvailableAlien from rfl, h1, h2]
  have h5 : (Clamp (Int.tdiv s.wave 3 + 1) 1 5).toNat ≤ 5 := by
    rcases Clamp_one_five (Int.tdiv s.wave 3 + 1) with h | h | h | h | h <;> rw [h] <;> decide
  obtain ⟨hcount, -⟩ := spawnRowsL_count
    ({ s with gameState := GameState.playState } : GState).cameraTargetX
    (Clamp (Int.tdiv s.wave 3 + 1) 1 5).toNat initialState.aliens 0
    rfl
    (by rw [show MAX_ALIEN_COUNT = 64 from rfl]; omega)
    (by
      intro j _ hj
      rw [show initialState.aliens = List.replicate MAX_ALIEN_COUNT deadAlien from rfl,
        List.getElem?_replicate_of_lt hj]
      rfl)
  rw [hcount, show countAlive initialState.aliens = 0 from rfl]
  omega

/-- C1, witness: the amended theorem applied to the initial state (wave 1,
empty pool): the spawn leaves clamp(1/3 + 1, 1, 5) * 11 = 11 live aliens. -/
theorem C1_spawn_count_witness :
    countAlive (FromReadyToPlayState initialState).aliens
      = (Clamp (Int.tdiv initialState.wave 3 + 1) 1 5).toNat * 11 :=
  C1_spawn_count initialState rfl rfl

/-- C3 (confirmed): the Play state is absorbing — for every input and frame
time, the Play-state update leaves the state field equal to Play (the update
contains no collision test and never calls FromPlayToWinState or
FromPlayToLoseState) — and from the initial state the Win and Lose states are
never entered: every reachable state is Start, Ready or Play. -/
theorem C3_play_absorbing (s : GState) :
    (∀ input, s.gameState = GameState.playState →
      (Update input s).gameState = GameState.playState)
    ∧ (Reachable s → s.gameState ≠ GameState.winState ∧ s.gameState ≠ GameState.loseState) := by
  constructor
  · intro input h
    rw [Update_play input s h, UpdatePlayState_gameState, h]
  · intro hr
    obtain ⟨hmem, -⟩ := reachable_goodState s hr
    rcases hmem with h | h | h <;> rw [h] <;> exact ⟨by decide, by decide⟩

/-- C3, witness: one update on a concrete play-state snapshot stays in Play,
and the initial state is not the Win state. -/
theorem C3_play_absorbing_witness :
    (Update inputNone sPlay).gameState = GameState.playState
    ∧ initialState.gameState ≠ GameState.winState :=
  ⟨(C3_play_absorbing sPlay).1 inputNone rfl,
   ((C3_play_absorbing initialState).2 Reachable.init).1⟩

/-- C9 (confirmed): in every reachable state, the ready timer is still zero
while the machine sits in Start (so any entry into Ready — which can only
happen from Start, by the reachability invariant — begins a full countdown),
the Start-state update never advances the ready timer, and in Ready the
machine stays in Ready accumulating the frame time until the accumulated
timer exceeds the 3-second threshold, at which point the update is exactly
the Ready-to-Play transition: it spawns the wave and enters Play. -/
theorem C9_ready_countdown (s : GState) (hs : Reachable s) :
    (s.gameState = GameState.startState → s.readyElapsed = 0)
    ∧ (∀ input, s.gameState = GameState.startState →
        (Update input s).readyElapsed = s.readyElapsed)
    ∧ (∀ input, s.gameState = GameState.readyState →
        (s.readyElapsed + input.frameTime > delayThreshold →
          Update input s
            = FromReadyToPlayState { s with readyElapsed := s.readyElapsed + input.frameTime }
          ∧ (Update input s).gameState = GameState.playState)
        ∧ (¬ s.readyElapsed + input.frameTime > delayThreshold →
          (Update input s).gameState = GameState.readyState
          ∧ (Update input s).readyElapsed = s.readyElapsed + input.frameTime
          ∧ (Update input s).aliens = s.aliens)) := by
  refine ⟨(reachable_goodState s hs).2, ?_, ?_⟩
  · intro input h
    rw [Update_start input s h]
    unfold UpdateStartState
    by_cases hk : input.spaceDown = true
    · rw [if_pos hk]
      rfl
    · rw [if_neg hk]
  · intro input h
    rw [Update_ready input s h]
    simp only [UpdateReadyState]
    constructor
    · intro hgt
      have hgt' : ({ s with readyElapsed := s.readyElapsed + input.frameTime } : GState).readyElapsed
          > delayThreshold := hgt
      rw [if_pos hgt']
      exact ⟨rfl, FromReadyToPlayState_gameState _⟩
    · intro hle
      have hle' : ¬ ({ s with readyElapsed := s.readyElapsed + input.frameTime } : GState).readyElapsed
          > delayThreshold := hle
      rw [if_neg hle']
      exact ⟨by rw [show ({ s with readyElapsed := s.readyElapsed + input.frameTime } : GState).gameState
          = s.gameState from rfl, h], rfl, rfl⟩

lemma alienPass_eq (dir : Bool) :
    ∀ (l : List Alien) (nd : Bool),
      alienPass dir l nd
        = (l.map (fun a => if a.alive then moveAlien dir a else a),
           if l.any (fun a => a.alive && alienHitsBound dir (moveAlien dir a))
           then !dir else nd) := by
  intro l
  induction l with
  | nil => intro nd; rfl
  | cons a rest ih =>
    intro nd
    cases ha : a.alive with
    | false => simp [alienPass, ha, ih]
    | true =>
      cases hb : alienHitsBound dir (moveAlien dir a) with
      | false => simp [alienPass, ha, hb, ih]
      | true => simp [alienPass, ha, hb, ih]

lemma UpdatePlayState_aliens (input : Input) (s : GState) :
    (UpdatePlayState input s).aliens
      = s.aliens.map (fun a => if a.alive then moveAlien s.alienDirection a else a) := by
  have hX : (UpdateAlienAnimations input (prePlayerPhase input s)).aliens = s.aliens := by
    rw [UpdateAlienAnimations_aliens, prePlayerPhase_aliens]
  have hXd : (UpdateAlienAnimations input (prePlayerPhase input s)).alienDirection
      = s.alienDirection := by
    rw [UpdateAlienAnimations_alienDirection, prePlayerPhase_alienDirection]
  rw [show (UpdatePlayState input s).aliens
      = (alienPass (UpdateAlienAnimations input (prePlayerPhase input s)).alienDirection
          (UpdateAlienAnimations input (prePlayerPhase input s)).aliens
          (UpdateAlienAnimations input (prePlayerPhase input s)).alienDirection).1 from rfl]
  rw [alienPass_eq, hX, hXd]

lemma UpdatePlayState_alienDirection (input : Input) (s : GState) :
    (UpdatePlayState input s).alienDirection
      = (if s.aliens.any
            (fun a => a.alive && alienHitsBound s.alienDirection (moveAlien s.alienDirection a))
         then !s.alienDirection else s.alienDirection) := by
  have hX : (UpdateAlienAnimations input (prePlayerPhase input s)).aliens = s.aliens := by
    rw [UpdateAlienAnimations_aliens, prePlayerPhase_aliens]
  have hXd : (UpdateAlienAnimations input (prePlayerPhase input s)).alienDirection
      = s.alienDirection := by
    rw [UpdateAlienAnimations_alienDirection, prePlayerPhase_alienDirection]
  rw [show (UpdatePlayState input s).alienDirection
      = (alienPass (UpdateAlienAnimations input (prePlayerPhase input s)).alienDirection
          (UpdateAlienAnimations input (prePlayerPhase input s)).aliens
          (UpdateAlienAnimations input (prePlayerPhase input s)).alienDirection).2 from rfl]
  rw [alienPass_eq, hX, hXd]

/-- Moving an alien leaves its alive flag untouched, so the formation pass
preserves the live-alien count. -/
lemma countAlive_map_move (dir : Bool) :
    ∀ l : List Alien,
      countAlive (l.map (fun a => if a.alive then moveAlien dir a else a)) = countAlive l := by
  intro l
  induction l with
  | nil => rfl
  | cons a rest ih =>
    rw [List.map_cons, countAlive_cons, countAlive_cons, ih]
    cases ha : a.alive with
    | false => simp [ha]
    | true => cases dir <;> simp [ha, moveAlien]

/-- C7 (confirmed): during a single Play-state update every live alien is
moved by `moveAlien` applied with the formation direction that was stored at
the start of the pass — the same direction for all aliens, a horizontal step
of alienSpeed = 1/2 in that direction — and the stored direction afterwards is
flipped exactly when some live alien's moved position crossed the horizontal
bound for that direction, so the following frame moves every alien the
opposite way. -/
theorem C7_formation_step (input : Input) (s : GState) :
    (UpdatePlayState input s).aliens
      = s.aliens.map (fun a => if a.alive then moveAlien s.alienDirection a else a)
    ∧ (UpdatePlayState input s).alienDirection
      = (if s.aliens.any
            (fun a => a.alive && alienHitsBound s.alienDirection (moveAlien s.alienDirection a))
         then !s.alienDirection else s.alienDirection) :=
  ⟨UpdatePlayState_aliens input s, UpdatePlayState_alienDirection input s⟩

lemma moveBullet_active_inBounds (b : Bullet) (h : (moveBullet b).active = true) :
    cameraBoundsY ≤ (moveBullet b).position.y := by
  unfold moveBullet at h ⊢
  by_cases hb : b.active = true
  · rw [if_pos hb] at h ⊢
    unfold pruneBullet at h ⊢
    by_cases hy : (integrateBullet b).position.y < cameraBoundsY
    · rw [if_pos hy] at h
      simp at h
    · rw [if_neg hy]
      exact le_of_not_lt hy
  · rw [if_neg hb] at h
    exact absurd h hb

/-- C10 (amended): during a Play-state update, every active bullet is moved
and then deactivated exactly when its new position is above the top play-bound
(position.y < cameraBounds.y) — this is the only bound test, applied to player
and alien bullets alike — so after every Play update every bullet that is
still active lies at or below the top play-bound. There is no bottom-bound
check, so an active bullet below the bottom play-bound stays active. -/
theorem C10_top_bound (input : Input) (s : GState) (j : Nat) (b : Bullet)
    (hb : (UpdatePlayState input s).bullets[j]? = some b)
    (ha : b.active = true) :
    cameraBoundsY ≤ b.position.y := by
  rw [show (UpdatePlayState input s).bullets
      = (moveAliens (UpdateAlienAnimations input (prePlayerPhase input s))).bullets.map moveBullet
      from rfl, List.getElem?_map] at hb
  rcases Option.map_eq_some'.mp hb with ⟨b0, hb0, hbeq⟩
  subst hbeq
  exact moveBullet_active_inBounds b0 ha

/-- C10, counterexample: an active alien-owned bullet at y = 300, already
below the bottom play-bound cameraBounds.y + cameraBounds.height = 285, is
still active after a Play update (at y = 301): the claimed bottom-bound
deactivation does not exist in the code. -/
theorem C10_counterexample :
    ((Update inputNone sAlienBullet).bullets[0]?).map (fun b => (b.active, b.position.y))
      = some (true, 301)
    ∧ cameraBoundsY + cameraBoundsHeight < 301 := by
  have h1 : (Update inputNone sAlienBullet).bullets
      = (moveAliens (UpdateAlienAnimations inputNone
          (prePlayerPhase inputNone sAlienBullet))).bullets.map moveBullet := by
    rw [Update_play inputNone sAlienBullet rfl]
    rfl
  rw [h1, moveAliens_bullets, UpdateAlienAnimations_bullets,
    show (prePlayerPhase inputNone sAlienBullet).bullets = sAlienBullet.bullets from rfl,
    List.getElem?_map]
  have h3 : sAlienBullet.bullets[0]?
      = some { position := { x := 480, y := 300 }, belongsToPlayer := false, active := true } := by
    rw [show sAlienBullet.bullets = initialState.bullets.set 0
        { position := { x := 480, y := 300 }, belongsToPlayer := false, active := true } from rfl,
      List.getElem?_set_self (by decide)]
  rw [h3]
  constructor
  · norm_num [moveBullet, integrateBullet, pruneBullet, cameraBoundsY, alienBulletSpeed]
  · norm_num [cameraBoundsY, cameraBoundsHeight]

/-- C10, witness for the amended theorem: a player bullet fired from y = 200
moves to y = 198, stays active, and the theorem instantiated at this concrete
state yields 150 ≤ 198. -/
theorem C10_top_bound_witness :
    cameraBoundsY ≤ bMoved.position.y := by
  have hb : (UpdatePlayState inputNone sPlayerBullet).bullets[0]? = some bMoved := by
    rw [show (UpdatePlayState inputNone sPlayerBullet).bullets
        = (moveAliens (UpdateAlienAnimations inputNone
            (prePlayerPhase inputNone sPlayerBullet))).bullets.map moveBullet from rfl,
      moveAliens_bullets, UpdateAlienAnimations_bullets,
      show (prePlayerPhase inputNone sPlayerBullet).bullets = sPlayerBullet.bullets from rfl,
      List.getElem?_map,
      show sPlayerBullet.bullets = initialState.bullets.set 0
        { position := { x := 480, y := 200 }, belongsToPlayer := true, active := true } from rfl,
      List.getElem?_set_self (by decide)]
    norm_num [moveBullet, integrateBullet, pruneBullet, bMoved, cameraBoundsY, playerBulletSpeed]
  exact C10_top_bound inputNone sPlayerBullet 0 _ hb rfl

/-- C2 (code bug), evaluation at the failing input: in the Play state, with
the last live alien overlapped by an active player bullet (bullet center
(482, 172) inside the alien sprite at (480, 170)), the update leaves the alien
alive, the bullet active (moved to y = 170, still overlapping) and the state
in Play: UpdatePlayState contains no bullet-alien collision test, never
decrements any alive counter and never calls FromPlayToWinState. -/
theorem C2_no_collision :
    (Update inputNone sHit).gameState = GameState.playState
    ∧ countAlive (Update inputNone sHit).aliens = 1
    ∧ ((Update inputNone sHit).bullets[0]?).map (fun b => (b.belongsToPlayer, b.active))
      = some (true, true) := by
  refine ⟨?_, ?_, ?_⟩
  · rw [Update_play inputNone sHit rfl, UpdatePlayState_gameState]
    rfl
  · rw [Update_play inputNone sHit rfl, UpdatePlayState_aliens, countAlive_map_move]
    decide
  · rw [Update_play inputNone sHit rfl,
      show (UpdatePlayState inputNone sHit).bullets
        = (moveAliens (UpdateAlienAnimations inputNone
            (prePlayerPhase inputNone sHit))).bullets.map moveBullet from rfl,
      moveAliens_bullets, UpdateAlienAnimations_bullets,
      show (prePlayerPhase inputNone sHit).bullets = sHit.bullets from rfl,
      List.getElem?_map,
      show sHit.bullets = initialState.bullets.set 0
        { position := { x := 482, y := 172 }, belongsToPlayer := true, active := true } from rfl,
      List.getElem?_set_self (by decide)]
    norm_num [moveBullet, integrateBullet, pruneBullet, cameraBoundsY, playerBulletSpeed]

/-- C4 (code bug), evaluation at the failing input: in the Lose state with 3
lives, a live alien on screen and the player away from its reset position,
once the timer passes 3 seconds the update transitions to Ready but performs
none of the claimed side effects: lives stay 3 (not decremented to 2), the
alien pool is not cleared and the player position is not reset
(FromLoseToReadyState only writes gameState). -/
theorem C4_lose_no_side_effects :
    (Update inputDt1 sLose3).gameState = GameState.readyState
    ∧ (Update inputDt1 sLose3).player.livesRemaining = 3
    ∧ countAlive (Update inputDt1 sLose3).aliens = 1
    ∧ (Update inputDt1 sLose3).player.position.x = 400 := by
  norm_num [Update, UpdateLoseState, UpdateAlienAnimations, FromLoseToReadyState,
    FromLoseToStartState, sLose3, initialState, countAlive, deadAlien, inactiveBullet,
    animationThreshold, delayThreshold, animationFrameCount, MAX_ALIEN_COUNT,
    MAX_BULLET_COUNT, alienInPlay, inputDt1, screenHalfWidth, screenHalfHeight,
    playerHalfWidth, playerHalfHeight]
  decide

/-- C5 (code bug), evaluation at the failing input: in the Lose state with
lives exhausted, on wave 7, once the timer passes 3 seconds the update
transitions to Start but performs no reset: lives stay 0 (not restored to 3)
and the wave stays 7 (not reset to 1); FromLoseToStartState only writes
gameState. -/
theorem C5_lose_no_reset :
    (Update inputDt1 sLose0).gameState = GameState.startState
    ∧ (Update inputDt1 sLose0).player.livesRemaining = 0
    ∧ (Update inputDt1 sLose0).wave = 7 := by
  norm_num [Update, UpdateLoseState, UpdateAlienAnimations, FromLoseToReadyState,
    FromLoseToStartState, sLose0, initialState, animationThreshold, delayThreshold,
    animationFrameCount, inputDt1, screenHalfWidth, screenHalfHeight,
    playerHalfWidth, playerHalfHeight]

/-- C6 (code bug), evaluation at the failing input: in the Win state on wave
4 with the player away from its reset position, once the timer passes 3
seconds the update transitions to Ready but the wave number stays 4 (it is
never incremented anywhere in the program) and the player position is not
reset; FromWinToReadyState only writes gameState. -/
theorem C6_win_no_side_effects :
    (Update inputDt1 sWin).gameState = GameState.readyState
    ∧ (Update inputDt1 sWin).wave = 4
    ∧ (Update inputDt1 sWin).player.position.x = 400 := by
  norm_num [Update, UpdateWinState, FromWinToReadyState, sWin, initialState,
    delayThreshold, inputDt1, screenHalfWidth, screenHalfHeight,
    playerHalfWidth, playerHalfHeight]

lemma shootIter_cursor : ∀ (k : Nat) (s : GState), s.nextAvailableBullet < MAX_BULLET_COUNT →
    (shootIter k s).nextAvailableBullet = (s.nextAvailableBullet + k) % MAX_BULLET_COUNT := by
  intro k
  induction k with
  | zero =>
    intro s h
    rw [show shootIter 0 s = s from rfl, Nat.add_zero, Nat.mod_eq_of_lt h]
  | succ k ih =>
    intro s h
    have h1 : (shootBullet s).nextAvailableBullet
        = (s.nextAvailableBullet + 1) % MAX_BULLET_COUNT := rfl
    have h2 : (shootBullet s).nextAvailableBullet < MAX_BULLET_COUNT := by
      rw [h1, show MAX_BULLET_COUNT = 64 from rfl]
      omega
    rw [show shootIter (k + 1) s = shootIter k (shootBullet s) from rfl, ih (shootBullet s) h2,
      h1, show MAX_BULLET_COUNT = 64 from rfl]
    have h64 : s.nextAvailableBullet < 64 := h
    omega

lemma shootIter_length : ∀ (k : Nat) (s : GState),
    (shootIter k s).bullets.length = s.bullets.length := by
  intro k
  induction k with
  | zero => intro s; rfl
  | succ k ih =>
    intro s
    rw [show shootIter (k + 1) s = shootIter k (shootBullet s) from rfl, ih,
      show (shootBullet s).bullets = s.bullets.set s.nextAvailableBullet
        { position := { x := s.player.position.x + (playerHalfWidth : ℚ),
                        y := s.player.position.y - (playerBulletRadius : ℚ) },
          belongsToPlayer := true, active := true } from rfl,
      List.length_set]

lemma shootBullet_marks (t : GState) (h : t.nextAvailableBullet < t.bullets.length) :
    ((shootBullet t).bullets[t.nextAvailableBullet]?).map (fun b => b.active) = some true := by
  rw [show (shootBullet t).bullets = t.bullets.set t.nextAvailableBullet
      { position := { x := t.player.position.x + (playerHalfWidth : ℚ),
                      y := t.player.position.y - (playerBulletRadius : ℚ) },
        belongsToPlayer := true, active := true } from rfl,
    List.getElem?_set_self h]
  rfl

/-- C8 (confirmed): both pools acquire by writing the slot under the cursor
and advancing the cursor modulo the capacity, so acquisition always succeeds
at a valid index regardless of prior occupancy. After k bullet acquisitions
the cursor sits at (start + k) mod 64 — so the k-th acquisition writes index
(start + k - 1) mod 64 — the acquired slot is always marked live, and after a
full lap of MAX_BULLET_COUNT acquisitions the cursor is back at the start, so
the next acquisition overwrites the slot the first one used. The alien pool
acquisition inside the spawn loop does the same for any column. -/
theorem C8_pool_acquire (s : GState) (k : Nat)
    (hb : s.nextAvailableBullet < MAX_BULLET_COUNT)
    (hbl : s.bullets.length = MAX_BULLET_COUNT)
    (ha : s.nextAvailableAlien < MAX_ALIEN_COUNT)
    (hal : s.aliens.length = MAX_ALIEN_COUNT)
    (c : Int) :
    (shootIter k s).nextAvailableBullet = (s.nextAvailableBullet + k) % MAX_BULLET_COUNT
    ∧ (s.nextAvailableBullet + k) % MAX_BULLET_COUNT < MAX_BULLET_COUNT
    ∧ ((shootBullet (shootIter k s)).bullets[(s.nextAvailableBullet + k)
        % MAX_BULLET_COUNT]?).map (fun b => b.active) = some true
    ∧ (shootIter MAX_BULLET_COUNT s).nextAvailableBullet = s.nextAvailableBullet
    ∧ (spawnAlien c s).nextAvailableAlien = (s.nextAvailableAlien + 1) % MAX_ALIEN_COUNT
    ∧ ((spawnAlien c s).aliens[s.nextAvailableAlien]?).map (fun a => a.alive) = some true := by
  have hcur := shootIter_cursor k s hb
  have hlen := shootIter_length k s
  have hlt : (shootIter k s).nextAvailableBullet < (shootIter k s).bullets.length := by
    rw [hcur, hlen, hbl, show MAX_BULLET_COUNT = 64 from rfl]
    omega
  refine ⟨hcur, ?_, ?_, ?_, rfl, ?_⟩
  · rw [show MAX_BULLET_COUNT = 64 from rfl]
    omega
  · rw [← hcur]
    exact shootBullet_marks (shootIter k s) hlt
  · have hb64 : s.nextAvailableBullet < 64 := hb
    rw [shootIter_cursor MAX_BULLET_COUNT s hb, show MAX_BULLET_COUNT = 64 from rfl]
    omega
  · rw [show (spawnAlien c s).aliens = s.aliens.set s.nextAvailableAlien
        { position := { x := s.cameraTargetX - ((c * (alienWidth + alienHalfWidth) : Int) : ℚ),
                        y := cameraBoundsY + 20 },
          alive := true } from rfl,
      List.getElem?_set_self (by rw [hal]; exact ha)]
    rfl

/-- C8, witness: the pool laws instantiated at the initial state with three
bullet acquisitions and one alien acquisition at column 0. -/
theorem C8_pool_acquire_witness :
    (shootIter 3 initialState).nextAvailableBullet
      = (initialState.nextAvailableBullet + 3) % MAX_BULLET_COUNT
    ∧ (initialState.nextAvailableBullet + 3) % MAX_BULLET_COUNT < MAX_BULLET_COUNT
    ∧ ((shootBullet (shootIter 3 initialState)).bullets[(initialState.nextAvailableBullet + 3)
        % MAX_BULLET_COUNT]?).map (fun b => b.active) = some true
    ∧ (shootIter MAX_BULLET_COUNT initialState).nextAvailableBullet
      = initialState.nextAvailableBullet
    ∧ (spawnAlien 0 initialState).nextAvailableAlien
      = (initialState.nextAvailableAlien + 1) % MAX_ALIEN_COUNT
    ∧ ((spawnAlien 0 initialState).aliens[initialState.nextAvailableAlien]?).map
        (fun a => a.alive) = some true :=
  C8_pool_acquire initialState 3 (by decide) (by decide) (by decide) (by decide) 0

/-- C9, witness: pressing SPACE in the initial state enters Ready with the
timer at zero; a following 4-second frame exceeds the threshold and the update
spawns the wave and enters Play. -/
theorem C9_ready_countdown_witness :
    (Update inputSpace initialState).readyElapsed = 0
    ∧ (Update inputDt4 (Update inputSpace initialState)).gameState = GameState.playState := by
  have hreach : Reachable (Update inputSpace initialState) :=
    Reachable.step inputSpace initialState Reachable.init
  have h := C9_ready_countdown (Update inputSpace initialState) hreach
  have hready : (Update inputSpace initialState).gameState = GameState.readyState := rfl
  have helapsed : (Update inputSpace initialState).readyElapsed = 0 := rfl
  refine ⟨helapsed, ?_⟩
  have hgt : (Update inputSpace initialState).readyElapsed + inputDt4.frameTime
      > delayThreshold := by
    rw [helapsed]
    norm_num [inputDt4, delayThreshold]
  exact ((h.2.2 inputDt4 hready).1 hgt).2

end SpaceInvaders
